import Mathlib

/-!
Shallow embedding of the RTE Tempo calendar worker
(`homeassistant/components/rtetempocalendar`): the datetime model, the API
payload parsing, the cache update, the wait-time planner and the query
helpers used by the calendar and sensor entities, together with theorems
checking the specified behaviour.
-/

namespace RteTempo

/-- Model of a Python aware `datetime`: `wall` is the wall-clock time in
seconds since civil 1970-01-01 00:00:00 (as shown on the local clock), and
`tz` is the UTC offset in seconds carried by the `tzinfo`.  Python arithmetic
`dt + timedelta` acts on the wall clock only and keeps `tzinfo`; comparison
and subtraction of two aware datetimes act on the absolute instant
`wall - tz`. -/
structure PyDatetime where
  wall : Int
  tz : Int
deriving DecidableEq

/-- Absolute instant (seconds since the epoch, in UTC) of an aware datetime. -/
def absSec (t : PyDatetime) : Int := t.wall - t.tz

/-- Number of days from 1970-01-01 to the civil date `y-m-d`
(Hinnant's days-from-civil algorithm). -/
def daysFromCivil (y m d : Int) : Int :=
  let y2 := if m ≤ 2 then y - 1 else y
  let era := Int.fdiv y2 400
  let yoe := y2 - era * 400
  let mp := Int.emod (m + 9) 12
  let doy := Int.fdiv (153 * mp + 2) 5 + d - 1
  let doe := yoe * 365 + Int.fdiv yoe 4 - Int.fdiv yoe 100 + doy
  era * 146097 + doe - 719468

/-- Gregorian leap-year test, as in Python's `datetime` module. -/
def isLeapYear (y : Nat) : Bool :=
  (y % 4 == 0 && y % 100 != 0) || y % 400 == 0

/-- Number of days of a month, as validated by the `datetime.datetime`
constructor. -/
def daysInMonth (y m : Nat) : Nat :=
  if m = 2 then (if isLeapYear y then 29 else 28)
  else if m = 4 ∨ m = 6 ∨ m = 9 ∨ m = 11 then 30
  else 31

/-- Take at most `n` leading decimal digits of the input. -/
def takeUpTo : Nat → List Char → List Char × List Char
  | 0, cs => ([], cs)
  | _ + 1, [] => ([], [])
  | n + 1, c :: rest =>
    if c.isDigit then
      let (ds, r) := takeUpTo n rest
      (c :: ds, r)
    else ([], c :: rest)

/-- Numeric value of a digit string. -/
def digitsToNat (ds : List Char) : Nat :=
  ds.foldl (fun a c => a * 10 + (c.toNat - 48)) 0

/-- Parse exactly `n` digits (a fixed-width `strptime` field such as `%Y`). -/
def parseFixed (n : Nat) (cs : List Char) : Option (Nat × List Char) :=
  let (ds, r) := takeUpTo n cs
  if ds.length = n then some (digitsToNat ds, r) else none

/-- Parse one or two digits greedily (the flexible `strptime` fields `%m`,
`%d`, `%H`, `%M`, `%S`, whose regexes accept one or two digits before the
following literal delimiter). -/
def parseFlex (cs : List Char) : Option (Nat × List Char) :=
  let (ds, r) := takeUpTo 2 cs
  if ds.length = 0 then none else some (digitsToNat ds, r)

/-- Consume one expected literal character. -/
def expectChar (c : Char) (cs : List Char) : Option (List Char) :=
  match cs with
  | x :: r => if x = c then some r else none
  | [] => none

/-- Parse the tail of the input as a `%z` UTC offset: a sign, two-digit
hours, an optional colon, two-digit minutes and optional two-digit seconds,
or a literal `Z` meaning UTC.  The whole input must be consumed and the
offset must be smaller than 24 hours, as the `datetime.timezone`
constructor demands.  Returns the offset in seconds. -/
def parseTzOffset (cs : List Char) : Option Int :=
  match cs with
  | ['Z'] => some 0
  | [] => none
  | c :: rest =>
    let sign : Int := if c = '+' then 1 else if c = '-' then -1 else 0
    if sign = 0 then none
    else
      match parseFixed 2 rest with
      | none => none
      | some (hh, r1) =>
        let r2 := match r1 with
          | ':' :: t => t
          | _ => r1
        match parseFixed 2 r2 with
        | none => none
        | some (mm, r3) =>
          if 60 ≤ mm then none
          else
            match r3 with
            | [] =>
              let off : Int := (hh : Int) * 3600 + (mm : Int) * 60
              if off < 86400 then some (sign * off) else none
            | _ =>
              let r4 := match r3 with
                | ':' :: t => t
                | _ => r3
              match parseFixed 2 r4 with
              | none => none
              | some (ss, r5) =>
                if 60 ≤ ss then none
                else if r5 = [] then
                  let off : Int := (hh : Int) * 3600 + (mm : Int) * 60 + (ss : Int)
                  if off < 86400 then some (sign * off) else none
                else none

/-- Parse a character list according to the date format of the source
(four-digit year, dash, month, dash, day, literal T, hour, colon, minute,
colon, second, UTC offset), with the range and calendar validation done by
`strptime` and the `datetime` constructor.  Python matches the format
case-insensitively, hence the lowercase `t` alternative. -/
def strptimeRte (cs : List Char) : Option PyDatetime :=
  match parseFixed 4 cs with
  | none => none
  | some (y, r1) =>
    match expectChar '-' r1 with
    | none => none
    | some r2 =>
      match parseFlex r2 with
      | none => none
      | some (mo, r3) =>
        match expectChar '-' r3 with
        | none => none
        | some r4 =>
          match parseFlex r4 with
          | none => none
          | some (d, r5) =>
            match r5 with
            | [] => none
            | c :: r6 =>
              if c = 'T' ∨ c = 't' then
                match parseFlex r6 with
                | none => none
                | some (hh, r7) =>
                  match expectChar ':' r7 with
                  | none => none
                  | some r8 =>
                    match parseFlex r8 with
                    | none => none
                    | some (mi, r9) =>
                      match expectChar ':' r9 with
                      | none => none
                      | some r10 =>
                        match parseFlex r10 with
                        | none => none
                        | some (ss, r11) =>
                          if 1 ≤ y ∧ 1 ≤ mo ∧ mo ≤ 12 ∧ 1 ≤ d ∧
                              d ≤ daysInMonth y mo ∧ hh ≤ 23 ∧ mi ≤ 59 ∧ ss ≤ 59 then
                            match parseTzOffset r11 with
                            | none => none
                            | some off =>
                              some ⟨daysFromCivil y mo d * 86400 +
                                      ((hh : Int) * 3600 + (mi : Int) * 60 + (ss : Int)),
                                    off⟩
                          else none
              else none

/-- Model of the source datetime parsing: drop the colon inside the timezone
offset (the two slice expressions become a take and a drop of the character
list) and then parse with the format of the source. -/
def parse_rte_api_datetime (s : String) : Option PyDatetime :=
  let cs := s.data
  strptimeRte (cs.take (cs.length - 3) ++ cs.drop (cs.length - 2))

/-- Civil date (day number since 1970-01-01) of an aware datetime, its
time-of-day discarded; models `datetime.date(dt.year, dt.month, dt.day)`
for datetimes built by the parser, whose time-of-day is below one day. -/
def pydate (t : PyDatetime) : Int := Int.fdiv t.wall 86400

/-- Model of the source function building a plain date from the same raw
string, through the datetime parser. -/
def parse_rte_api_date (s : String) : Option Int :=
  (parse_rte_api_datetime s).map pydate

/-- Shift a datetime by the day-change hour `h`: the source adds
`timedelta(hours=API_HOUR_OF_CHANGE)`, which adds to the wall clock and
keeps the tzinfo. -/
def adjust_tempo_time (h : Int) (t : PyDatetime) : PyDatetime :=
  ⟨t.wall + h * 3600, t.tz⟩

/-- Value of the `API_VALUE_BLUE` constant. -/
def API_VALUE_BLUE : String := "BLUE"

/-- Tempo day record (the `TempoDay` named tuple), with boundary type `α`:
aware datetimes for the time-adjusted view, plain dates for the date-only
view. -/
structure TempoDay (α : Type) where
  Start : α
  End : α
  Value : String
  Updated : PyDatetime
deriving DecidableEq

/-- Time-adjusted tempo day: boundaries are aware datetimes. -/
abbrev TempoDayT := TempoDay PyDatetime

/-- Date-only tempo day: boundaries are civil dates (day numbers). -/
abbrev TempoDayD := TempoDay Int

/-- Python exception classes relevant to the worker: a missing dictionary
key raises `KeyError`, a failed date parse (or an out-of-range constructor
argument) raises `ValueError`. -/
inductive PyErr where
  | keyError : PyErr
  | valueError : PyErr
deriving DecidableEq

/-- One raw day entry of the API payload: a dictionary whose four keys
(`start_date`, `end_date`, `value`, `updated_date`) may each be present or
absent; accessing an absent key raises `KeyError`. -/
structure RawEntry where
  start_date : Option String
  end_date : Option String
  value : Option String
  updated_date : Option String
deriving DecidableEq

/-- The `tempo_like_calendars` object of the payload: the list of raw day
entries under `values` and the window end date under `end_date`. -/
structure Results where
  values : Option (List RawEntry)
  end_date : Option String
deriving DecidableEq

/-- A decoded API payload: either carries the error keys or the results
object.  Each key may be absent, raising `KeyError` on access. -/
structure Payload where
  error : Option String
  error_description : Option String
  tempo_like_calendars : Option Results
deriving DecidableEq

/-- The worker's cached views (`_tempo_days_time` and `_tempo_days_date`). -/
structure APIWorker where
  tempo_days_time : List TempoDayT
  tempo_days_date : List TempoDayD
deriving DecidableEq

/-- Accessor returning the view selected by the `adjusted_days` option. -/
def APIWorker.get_calendar_days (w : APIWorker) (adjusted_days : Bool) :
    List TempoDayT ⊕ List TempoDayD :=
  if adjusted_days then Sum.inl w.tempo_days_time else Sum.inr w.tempo_days_date

/-- Accessor always returning the time-adjusted view. -/
def APIWorker.get_adjusted_days (w : APIWorker) : List TempoDayT :=
  w.tempo_days_time

/-- The try-block of the per-entry loop: fetch and parse the four fields in
the evaluation order of the source (start, end, value, updated); a missing
key raises `KeyError` and a failed parse raises `ValueError`.  On success
the records of both views are built from the same parses. -/
def tryParseEntry (h : Int) (e : RawEntry) : Except PyErr (TempoDayT × TempoDayD) :=
  match e.start_date with
  | none => .error .keyError
  | some sStr =>
    match parse_rte_api_datetime sStr with
    | none => .error .valueError
    | some sDT =>
      match e.end_date with
      | none => .error .keyError
      | some eStr =>
        match parse_rte_api_datetime eStr with
        | none => .error .valueError
        | some eDT =>
          match e.value with
          | none => .error .keyError
          | some v =>
            match e.updated_date with
            | none => .error .keyError
            | some uStr =>
              match parse_rte_api_datetime uStr with
              | none => .error .valueError
              | some uDT =>
                .ok (⟨adjust_tempo_time h sDT, adjust_tempo_time h eDT, v, uDT⟩,
                     ⟨pydate sDT, pydate eDT, v, uDT⟩)

/-- The known-bad-day branch of the `except KeyError` handler: rebuild the
records with the fixed `BLUE` value, again fetching and parsing start, end
and updated; a key still missing raises `KeyError` and a failed parse
raises `ValueError`, both uncaught there. -/
def fallbackEntry (h : Int) (e : RawEntry) : Except PyErr (TempoDayT × TempoDayD) :=
  match e.start_date with
  | none => .error .keyError
  | some sStr =>
    match parse_rte_api_datetime sStr with
    | none => .error .valueError
    | some sDT =>
      match e.end_date with
      | none => .error .keyError
      | some eStr =>
        match parse_rte_api_datetime eStr with
        | none => .error .valueError
        | some eDT =>
          match e.updated_date with
          | none => .error .keyError
          | some uStr =>
            match parse_rte_api_datetime uStr with
            | none => .error .valueError
            | some uDT =>
              .ok (⟨adjust_tempo_time h sDT, adjust_tempo_time h eDT, API_VALUE_BLUE, uDT⟩,
                   ⟨pydate sDT, pydate eDT, API_VALUE_BLUE, uDT⟩)

/-- The hard-coded problem date of the known-bad-data rule. -/
def problemStart : String := "2022-12-28T00:00:00+01:00"

/-- Processing of one raw entry by the loop body: `ok (some pair)` appends
the pair to the two views, `ok none` logs and skips the entry, `error`
propagates out of the whole batch.  Only `KeyError` is caught; inside the
handler the raw start is read again (raising uncaught `KeyError` when the
start itself is missing) and compared with the problem-date literal. -/
def processEntry (h : Int) (e : RawEntry) : Except PyErr (Option (TempoDayT × TempoDayD)) :=
  match tryParseEntry h e with
  | .ok p => .ok (some p)
  | .error .valueError => .error .valueError
  | .error .keyError =>
    match e.start_date with
    | none => .error .keyError
    | some sStr =>
      if sStr = problemStart then
        match fallbackEntry h e with
        | .ok p => .ok (some p)
        | .error err => .error err
      else
        .ok none

/-- The per-entry loop of the batch parser: builds the two views in
lockstep; the first propagated exception discards the whole batch. -/
def processValues (h : Int) : List RawEntry → Except PyErr (List TempoDayT × List TempoDayD)
  | [] => .ok ([], [])
  | e :: rest =>
    match processEntry h e with
    | .error err => .error err
    | .ok none => processValues h rest
    | .ok (some (t, d)) =>
      match processValues h rest with
      | .error err => .error err
      | .ok (lt, ld) => .ok (t :: lt, d :: ld)

/-- Model of the batch update method on a decoded payload: the error-keys
check (early return of `None` only when both keys are present, since a
`KeyError` on either is swallowed by `pass`), the per-entry loop, the
in-place replacement of both cached views, and the parse of the results
end date.  The returned state is the worker state at normal or raised
exit; `Except.error` models an exception propagating out of the method. -/
def update_tempo_days (h : Int) (w : APIWorker) (payload : Payload) :
    APIWorker × Except PyErr (Option PyDatetime) :=
  if payload.error.isSome && payload.error_description.isSome then
    (w, .ok none)
  else
    match payload.tempo_like_calendars with
    | none => (w, .error .keyError)
    | some res =>
      match res.values with
      | none => (w, .error .keyError)
      | some entries =>
        match processValues h entries with
        | .error err => (w, .error err)
        | .ok (lt, ld) =>
          let w2 : APIWorker := ⟨lt, ld⟩
          match res.end_date with
          | none => (w2, .error .keyError)
          | some s =>
            match parse_rte_api_datetime s with
            | none => (w2, .error .valueError)
            | some dEnd => (w2, .ok (some dEnd))

/-- Start of the current day (`datetime.combine(now.date(), time(tzinfo))`):
wall clock rounded down to midnight, same timezone. -/
def startOfToday (now : PyDatetime) : PyDatetime :=
  ⟨Int.fdiv now.wall 86400 * 86400, now.tz⟩

/-- Number of whole days of the timedelta `data_end - startOfToday now`
(Python `timedelta.days` floors towards minus infinity). -/
def diffDays (now data_end : PyDatetime) : Int :=
  Int.fdiv (absSec data_end - absSec (startOfToday now)) 86400

/-- Model of the wait-time planner, in seconds: 10 minutes when the fetch
failed, the time left until local midnight of tomorrow's date when the
window ends two days after today's midnight, 30 minutes when it ends one
day after, one hour otherwise. -/
def compute_wait_time (now : PyDatetime) (data_end : Option PyDatetime) : Int :=
  match data_end with
  | none => 600
  | some de =>
    if diffDays now de = 2 then
      let tomorrow : PyDatetime := ⟨now.wall + 86400, now.tz⟩
      let next_call : PyDatetime := ⟨Int.fdiv tomorrow.wall 86400 * 86400, tomorrow.tz⟩
      absSec next_call - absSec now
    else if diffDays now de = 1 then 1800
    else 3600

/-- Duration from `now` to the next strictly-later local midnight,
in seconds. -/
def durationUntilNextLocalMidnight (now : PyDatetime) : Int :=
  (Int.fdiv now.wall 86400 + 1) * 86400 - now.wall

/-- Containment test of the current-color queries:
`tempo_day.Start <= now < tempo_day.End` on aware datetimes. -/
def containsNow (now : PyDatetime) (d : TempoDayT) : Bool :=
  decide (absSec d.Start ≤ absSec now) && decide (absSec now < absSec d.End)

/-- Current-color query of the sensor entity: first record of the adjusted
view whose half-open interval contains `now`, else nothing. -/
def CurrentColor.update (days : List TempoDayT) (now : PyDatetime) : Option TempoDayT :=
  days.find? (containsNow now)

/-- Current-event query of the calendar entity: same loop as the sensor. -/
def TempoCalendar.event (days : List TempoDayT) (now : PyDatetime) : Option TempoDayT :=
  days.find? (containsNow now)

/-- Next-color query of the sensor entity: first record whose start is
strictly after `now`, else nothing. -/
def NextColor.update (days : List TempoDayT) (now : PyDatetime) : Option TempoDayT :=
  days.find? (fun d => decide (absSec now < absSec d.Start))

/-- Range-inclusion test of the calendar range query: a record is kept when
fully contained in the window, or overlapping its left edge, or overlapping
its right edge (the three chained comparisons of the source). -/
def inRange (start_date end_date : PyDatetime) (d : TempoDayT) : Bool :=
  (decide (absSec start_date ≤ absSec d.Start) && decide (absSec d.End ≤ absSec end_date)) ||
  (decide (absSec d.Start < absSec start_date) && decide (absSec start_date < absSec d.End) &&
    decide (absSec d.End < absSec end_date)) ||
  (decide (absSec start_date < absSec d.Start) && decide (absSec d.Start < absSec end_date) &&
    decide (absSec end_date < absSec d.End))

/-- Range query of the calendar entity: all cached records matching the
window test, in cache order. -/
def TempoCalendar.async_get_events (days : List TempoDayT)
    (start_date end_date : PyDatetime) : List TempoDayT :=
  days.filter (inRange start_date end_date)

/-- Failure classes of a data request: the token expired mid-flight, or any
other request failure (`other` carries an arbitrary discriminant). -/
inductive ReqError where
  | tokenExpired : ReqError
  | other : Nat → ReqError
deriving DecidableEq

/-- Outcomes the transport would give to the first and to the retried data
request of one call. -/
structure OauthTransport (ρ : Type) where
  first : Except ReqError ρ
  second : Except ReqError ρ

/-- Model of the data-request method: try the request; only on
`TokenExpiredError` re-authenticate and issue the request once more,
whose outcome (success or any failure) is returned as is.  Also returns
the number of data requests issued and of re-authentications performed. -/
def get_tempo_data {ρ : Type} (t : OauthTransport ρ) : Except ReqError ρ × Nat × Nat :=
  match t.first with
  | .ok r => (.ok r, 1, 0)
  | .error .tokenExpired => (t.second, 2, 1)
  | .error e => (.error e, 1, 0)

/-- One iteration of the worker loop after the fetch returned `payload`:
update the cached days, then compute the wait time from the returned end
date.  An exception propagating out of the update leaves the loop body,
where nothing catches it. -/
def runCycle (h : Int) (w : APIWorker) (now : PyDatetime) (payload : Payload) :
    APIWorker × Except PyErr Int :=
  match update_tempo_days h w payload with
  | (w2, .ok dEnd) => (w2, .ok (compute_wait_time now dEnd))
  | (w2, .error err) => (w2, .error err)

/-- The worker loop over a scripted list of cycles (each giving the current
time and the decoded payload of that cycle's fetch): runs cycles in order
and stops at the first uncaught exception, whose class is returned; `none`
means every scripted cycle completed. -/
def runLoop (h : Int) (w : APIWorker) :
    List (PyDatetime × Payload) → APIWorker × Option PyErr
  | [] => (w, none)
  | (now, p) :: rest =>
    match runCycle h w now p with
    | (w2, .ok _) => runLoop h w2 rest
    | (w2, .error err) => (w2, some err)

/-- Decidable equality of exception-carrying results, used to evaluate the
model on concrete inputs. -/
instance {ε α : Type} [DecidableEq ε] [DecidableEq α] : DecidableEq (Except ε α) :=
  fun x y =>
  match x, y with
  | .ok a, .ok b => if h : a = b then isTrue (by rw [h]) else isFalse (by simp [h])
  | .ok _, .error _ => isFalse (by simp)
  | .error _, .ok _ => isFalse (by simp)
  | .error a, .error b => if h : a = b then isTrue (by rw [h]) else isFalse (by simp [h])

/-- Empty worker state, as right after initialization. -/
def w0 : APIWorker := ⟨[], []⟩

/-- Concrete current time used in the closed checks (wall clock 100000 s,
offset +01:00). -/
def nowA : PyDatetime := ⟨100000, 3600⟩

/-- Concrete window end two days after the midnight of `nowA`. -/
def deA : PyDatetime := ⟨259200, 3600⟩

/-- Concrete window end far from the midnight of `nowA`. -/
def deB : PyDatetime := ⟨432000, 3600⟩

/-- Concrete well-formed raw entry. -/
def entryW : RawEntry :=
  ⟨some "2024-01-01T00:00:00+01:00", some "2024-01-02T00:00:00+01:00",
   some "WHITE", some "2023-12-31T10:20:30+01:00"⟩

/-- Concrete well-formed raw entry for the batch checks. -/
def entryW2 : RawEntry :=
  ⟨some "2024-01-02T00:00:00+01:00", some "2024-01-03T00:00:00+01:00",
   some "RED", some "2024-01-01T10:00:00+01:00"⟩

/-- Concrete raw entry whose start key is absent. -/
def entryNoStart : RawEntry :=
  ⟨none, some "2024-01-02T00:00:00+01:00", some "RED",
   some "2024-01-01T10:00:00+01:00"⟩

/-- Concrete raw entry of the documented problem day, its value key absent. -/
def entryProblem : RawEntry :=
  ⟨some "2022-12-28T00:00:00+01:00", some "2022-12-29T00:00:00+01:00", none,
   some "2022-12-27T12:00:00+01:00"⟩

/-- Concrete raw entry missing its value key, with a start different from
the problem date. -/
def entrySkip : RawEntry :=
  ⟨some "2024-01-05T00:00:00+01:00", some "2024-01-06T00:00:00+01:00", none,
   some "2024-01-04T10:00:00+01:00"⟩

/-- Concrete payload carrying both error keys. -/
def errorPayload : Payload := ⟨some "TMP-1", some "quota exceeded", none⟩

/-- Concrete payload missing the results key altogether. -/
def missingResultsPayload : Payload := ⟨none, none, none⟩

theorem find?_first {α : Type} {p : α → Bool} {l : List α} {a : α}
    (hf : l.find? p = some a) :
    p a = true ∧ ∃ pre post, l = pre ++ a :: post ∧ ∀ x ∈ pre, p x = false := by
  induction l with
  | nil => simp at hf
  | cons b t ih =>
    by_cases hb : p b = true
    · rw [List.find?_cons_of_pos _ hb] at hf
      obtain rfl : b = a := by injection hf
      exact ⟨hb, [], t, rfl, by simp⟩
    · rw [List.find?_cons_of_neg _ hb] at hf
      obtain ⟨hpa, pre, post, rfl, hpre⟩ := ih hf
      refine ⟨hpa, b :: pre, post, rfl, ?_⟩
      intro x hx
      rcases List.mem_cons.mp hx with rfl | hx2
      · simpa using hb
      · exact hpre x hx2

theorem fdiv_add_day (a : Int) :
    Int.fdiv (a + 86400) 86400 = Int.fdiv a 86400 + 1 := by
  rw [Int.fdiv_eq_ediv _ (by norm_num), Int.fdiv_eq_ediv _ (by norm_num)]
  omega

/-- C1: the wait-time planner returns 10 minutes (600 s) when the window
end is absent; the duration from `now` to the next local midnight when the
window end lies two days after today's local midnight; exactly 30 minutes
when it lies one day after; and exactly 60 minutes for any other
difference. -/
theorem compute_wait_time_spec (now de : PyDatetime) :
    compute_wait_time now none = 600 ∧
    (diffDays now de = 2 →
      compute_wait_time now (some de) = durationUntilNextLocalMidnight now) ∧
    (diffDays now de = 1 → compute_wait_time now (some de) = 1800) ∧
    (diffDays now de ≠ 2 → diffDays now de ≠ 1 →
      compute_wait_time now (some de) = 3600) := by
  refine ⟨rfl, ?_, ?_, ?_⟩
  · intro h2
    simp only [compute_wait_time, h2, if_pos, durationUntilNextLocalMidnight, absSec,
      fdiv_add_day]
    ring
  · intro h1
    have hne : diffDays now de ≠ 2 := by omega
    simp [compute_wait_time, h1, hne]
  · intro hne2 hne1
    simp [compute_wait_time, hne2, hne1]

/-- Closed instance of the wait-time contract: a window end two days out
yields the time to next midnight, and a far-away end yields one hour. -/
theorem compute_wait_time_spec_witness :
    (diffDays nowA deA = 2 ∧
      compute_wait_time nowA (some deA) = durationUntilNextLocalMidnight nowA) ∧
    (diffDays nowA deB ≠ 2 ∧ diffDays nowA deB ≠ 1 ∧
      compute_wait_time nowA (some deB) = 3600) :=
  ⟨⟨by decide, (compute_wait_time_spec nowA deA).2.1 (by decide)⟩,
   ⟨by decide, by decide,
    (compute_wait_time_spec nowA deB).2.2.2 (by decide) (by decide)⟩⟩

/-- C2: a well-formed raw entry (all four keys present, all three dates
parseable) yields in the time-adjusted view a record whose start and end
are the raw boundaries shifted by the day-change hour `h`, and in the
date-only view a record whose boundaries are the civil dates of the raw
boundaries; both records carry the raw value and the raw updated
timestamp. -/
theorem entry_views_spec (h : Int) (e : RawEntry) (sStr eStr v uStr : String)
    (sDT eDT uDT : PyDatetime)
    (hs : e.start_date = some sStr) (he : e.end_date = some eStr)
    (hv : e.value = some v) (hu : e.updated_date = some uStr)
    (hps : parse_rte_api_datetime sStr = some sDT)
    (hpe : parse_rte_api_datetime eStr = some eDT)
    (hpu : parse_rte_api_datetime uStr = some uDT) :
    processEntry h e = Except.ok (some
      (⟨⟨sDT.wall + h * 3600, sDT.tz⟩, ⟨eDT.wall + h * 3600, eDT.tz⟩, v, uDT⟩,
       ⟨pydate sDT, pydate eDT, v, uDT⟩)) := by
  simp [processEntry, tryParseEntry, hs, he, hv, hu, hps, hpe, hpu, adjust_tempo_time]

/-- Closed instance of the view-building contract on a concrete entry with
day-change hour 6. -/
theorem entry_views_spec_witness :
    processEntry 6 entryW = Except.ok (some
      (⟨⟨1704067200 + 6 * 3600, 3600⟩, ⟨1704153600 + 6 * 3600, 3600⟩,
        "WHITE", ⟨1704018030, 3600⟩⟩,
       ⟨19723, 19724, "WHITE", ⟨1704018030, 3600⟩⟩)) :=
  entry_views_spec 6 entryW _ _ _ _ ⟨1704067200, 3600⟩ ⟨1704153600, 3600⟩
    ⟨1704018030, 3600⟩ rfl rfl rfl rfl (by decide) (by decide) (by decide)

/-- C3: the current-color query returns the first record of the list whose
half-open interval contains `now`, and nothing when no record contains
`now`; the calendar's current-event query runs the same loop. -/
theorem query_current_spec (days : List TempoDayT) (now : PyDatetime) :
    (∀ d, CurrentColor.update days now = some d →
      (absSec d.Start ≤ absSec now ∧ absSec now < absSec d.End) ∧
      ∃ pre post, days = pre ++ d :: post ∧
        ∀ x ∈ pre, ¬(absSec x.Start ≤ absSec now ∧ absSec now < absSec x.End)) ∧
    (CurrentColor.update days now = none ↔
      ∀ d ∈ days, ¬(absSec d.Start ≤ absSec now ∧ absSec now < absSec d.End)) ∧
    TempoCalendar.event days now = CurrentColor.update days now := by
  refine ⟨?_, ?_, rfl⟩
  · intro d hd
    obtain ⟨hpd, pre, post, heq, hpre⟩ := find?_first hd
    refine ⟨by simpa [containsNow] using hpd, pre, post, heq, ?_⟩
    intro x hx
    have hx2 := hpre x hx
    simpa [containsNow] using hx2
  · rw [CurrentColor.update, List.find?_eq_none]
    simp [containsNow]

/-- Closed instance of the current-color query on a two-record list whose
second record contains `now`. -/
theorem query_current_spec_witness :
    (absSec (⟨⟨86400, 0⟩, ⟨172800, 0⟩, "RED", ⟨0, 0⟩⟩ : TempoDayT).Start ≤
        absSec (⟨90000, 0⟩ : PyDatetime) ∧
      absSec (⟨90000, 0⟩ : PyDatetime) <
        absSec (⟨⟨86400, 0⟩, ⟨172800, 0⟩, "RED", ⟨0, 0⟩⟩ : TempoDayT).End) ∧
    ∃ pre post,
      [(⟨⟨0, 0⟩, ⟨86400, 0⟩, "BLUE", ⟨0, 0⟩⟩ : TempoDayT),
       ⟨⟨86400, 0⟩, ⟨172800, 0⟩, "RED", ⟨0, 0⟩⟩] =
        pre ++ (⟨⟨86400, 0⟩, ⟨172800, 0⟩, "RED", ⟨0, 0⟩⟩ : TempoDayT) :: post ∧
      ∀ x ∈ pre,
        ¬(absSec x.Start ≤ absSec (⟨90000, 0⟩ : PyDatetime) ∧
          absSec (⟨90000, 0⟩ : PyDatetime) < absSec x.End) :=
  (query_current_spec
    [⟨⟨0, 0⟩, ⟨86400, 0⟩, "BLUE", ⟨0, 0⟩⟩, ⟨⟨86400, 0⟩, ⟨172800, 0⟩, "RED", ⟨0, 0⟩⟩]
    ⟨90000, 0⟩).1 ⟨⟨86400, 0⟩, ⟨172800, 0⟩, "RED", ⟨0, 0⟩⟩ (by decide)

/-- C9: on a list sorted by start, the next-color query returns the first
record whose start is strictly after `now`, and nothing when no record
starts after `now`. -/
theorem query_next_spec (days : List TempoDayT) (now : PyDatetime)
    (_hsorted : days.Pairwise (fun a b => absSec a.Start ≤ absSec b.Start)) :
    (∀ d, NextColor.update days now = some d →
      absSec now < absSec d.Start ∧
      ∃ pre post, days = pre ++ d :: post ∧
        ∀ x ∈ pre, ¬(absSec now < absSec x.Start)) ∧
    (NextColor.update days now = none ↔
      ∀ d ∈ days, ¬(absSec now < absSec d.Start)) := by
  refine ⟨?_, ?_⟩
  · intro d hd
    obtain ⟨hpd, pre, post, heq, hpre⟩ := find?_first hd
    refine ⟨by simpa using hpd, pre, post, heq, ?_⟩
    intro x hx
    simpa using hpre x hx
  · rw [NextColor.update, List.find?_eq_none]
    simp

/-- Closed instance of the next-color query on a sorted two-record list:
the second record is the first starting after `now`. -/
theorem query_next_spec_witness :
    absSec (⟨10, 0⟩ : PyDatetime) <
      absSec (⟨⟨86400, 0⟩, ⟨172800, 0⟩, "RED", ⟨0, 0⟩⟩ : TempoDayT).Start ∧
    ∃ pre post,
      [(⟨⟨0, 0⟩, ⟨86400, 0⟩, "BLUE", ⟨0, 0⟩⟩ : TempoDayT),
       ⟨⟨86400, 0⟩, ⟨172800, 0⟩, "RED", ⟨0, 0⟩⟩] =
        pre ++ (⟨⟨86400, 0⟩, ⟨172800, 0⟩, "RED", ⟨0, 0⟩⟩ : TempoDayT) :: post ∧
      ∀ x ∈ pre, ¬(absSec (⟨10, 0⟩ : PyDatetime) < absSec x.Start) :=
  (query_next_spec
    [⟨⟨0, 0⟩, ⟨86400, 0⟩, "BLUE", ⟨0, 0⟩⟩, ⟨⟨86400, 0⟩, ⟨172800, 0⟩, "RED", ⟨0, 0⟩⟩]
    ⟨10, 0⟩ (by decide)).1 ⟨⟨86400, 0⟩, ⟨172800, 0⟩, "RED", ⟨0, 0⟩⟩ (by decide)

/-- C8: the calendar range query keeps exactly the records fully contained
in the window or overlapping one of its edges: a record belongs to the
result precisely when it is cached and satisfies one of the three
conditions of the source. -/
theorem query_range_spec (days : List TempoDayT) (s e : PyDatetime) (d : TempoDayT) :
    d ∈ TempoCalendar.async_get_events days s e ↔
      d ∈ days ∧
        ((absSec d.Start ≥ absSec s ∧ absSec d.End ≤ absSec e) ∨
         (absSec d.Start < absSec s ∧ absSec s < absSec d.End ∧ absSec d.End < absSec e) ∨
         (absSec s < absSec d.Start ∧ absSec d.Start < absSec e ∧ absSec e < absSec d.End)) := by
  simp [TempoCalendar.async_get_events, List.mem_filter, inRange, and_assoc, or_assoc,
    ge_iff_le]

/-- C7: the data request is retried exactly once, and only after a
mid-flight token expiry with a fresh authentication; a success or any
other failure of the first attempt is returned directly, the outcome of
the retry is returned as is, and no call issues more than two requests. -/
theorem get_tempo_data_retry_spec {ρ : Type} (t : OauthTransport ρ) :
    (t.first = .error .tokenExpired → get_tempo_data t = (t.second, 2, 1)) ∧
    (∀ r, t.first = .ok r → get_tempo_data t = (.ok r, 1, 0)) ∧
    (∀ e, t.first = .error e → e ≠ .tokenExpired →
      get_tempo_data t = (.error e, 1, 0)) ∧
    (get_tempo_data t).2.1 ≤ 2 := by
  obtain ⟨first, second⟩ := t
  refine ⟨?_, ?_, ?_, ?_⟩
  · rintro rfl
    rfl
  · rintro r rfl
    rfl
  · rintro e rfl he
    cases e with
    | tokenExpired => exact absurd rfl he
    | other n => rfl
  · cases first with
    | ok r => exact Nat.le_succ 1
    | error e => cases e <;> simp [get_tempo_data]

/-- Closed instance of the retry policy: a first attempt failing by token
expiry is followed by exactly one retried request whose outcome is
returned. -/
theorem get_tempo_data_retry_spec_witness :
    get_tempo_data (⟨Except.error ReqError.tokenExpired, Except.ok 7⟩ :
      OauthTransport Nat) = (Except.ok 7, 2, 1) :=
  (get_tempo_data_retry_spec
    (⟨Except.error ReqError.tokenExpired, Except.ok 7⟩ : OauthTransport Nat)).1 rfl

/-- C6: an error-mapping payload (both error keys present) produces no
records, returns an absent window end and leaves both cached views exactly
as before; and in every case the cached views are either both untouched or
both replaced by the two lists built from the same successful parse. -/
theorem update_error_mapping_spec (h : Int) (w : APIWorker) (p : Payload) :
    (p.error.isSome = true → p.error_description.isSome = true →
      update_tempo_days h w p = (w, Except.ok none)) ∧
    ((update_tempo_days h w p).1 = w ∨
      ∃ res entries lt ld, p.tempo_like_calendars = some res ∧
        res.values = some entries ∧ processValues h entries = Except.ok (lt, ld) ∧
        (update_tempo_days h w p).1 = ⟨lt, ld⟩) := by
  constructor
  · intro h1 h2
    simp [update_tempo_days, h1, h2]
  · by_cases hc : p.error.isSome && p.error_description.isSome
    · left
      simp [update_tempo_days, hc]
    · rcases hr : p.tempo_like_calendars with _ | res
      · left
        simp [update_tempo_days, hc, hr]
      · rcases hv : res.values with _ | entries
        · left
          simp [update_tempo_days, hc, hr, hv]
        · rcases hpv : processValues h entries with err | ⟨lt, ld⟩
          · left
            simp [update_tempo_days, hc, hr, hv, hpv]
          · right
            refine ⟨res, entries, lt, ld, rfl, hv, hpv, ?_⟩
            rcases he : res.end_date with _ | sEnd
            · simp [update_tempo_days, hc, hr, hv, hpv, he]
            · rcases hp : parse_rte_api_datetime sEnd with _ | dEnd <;>
                simp [update_tempo_days, hc, hr, hv, hpv, he, hp]

/-- Closed instance of the error-mapping behaviour: a payload with both
error keys leaves the worker state untouched and yields no end date. -/
theorem update_error_mapping_spec_witness :
    update_tempo_days 6 w0 errorPayload = (w0, Except.ok none) :=
  (update_error_mapping_spec 6 w0 errorPayload).1 rfl rfl

theorem tryParseEntry_sync (h : Int) (e : RawEntry) (t : TempoDayT) (d : TempoDayD)
    (hok : tryParseEntry h e = Except.ok (t, d)) :
    t.Value = d.Value ∧ t.Updated = d.Updated := by
  unfold tryParseEntry at hok
  iterate 12 (all_goals try split at hok)
  all_goals try (simp_all; done)
  obtain ⟨ht, hd⟩ : _ = t ∧ _ = d := by simpa using hok
  rw [← ht, ← hd]
  exact ⟨rfl, rfl⟩

theorem fallbackEntry_sync (h : Int) (e : RawEntry) (t : TempoDayT) (d : TempoDayD)
    (hok : fallbackEntry h e = Except.ok (t, d)) :
    t.Value = d.Value ∧ t.Updated = d.Updated := by
  unfold fallbackEntry at hok
  iterate 12 (all_goals try split at hok)
  all_goals try (simp_all; done)
  obtain ⟨ht, hd⟩ : _ = t ∧ _ = d := by simpa using hok
  rw [← ht, ← hd]
  exact ⟨rfl, rfl⟩

theorem processEntry_sync (h : Int) (e : RawEntry) (t : TempoDayT) (d : TempoDayD)
    (hok : processEntry h e = Except.ok (some (t, d))) :
    t.Value = d.Value ∧ t.Updated = d.Updated := by
  unfold processEntry at hok
  split at hok
  · rename_i p heq
    obtain ⟨t2, d2⟩ := p
    obtain ⟨rfl, rfl⟩ : t2 = t ∧ d2 = d := by simpa using hok
    exact tryParseEntry_sync h e _ _ heq
  · simp_all
  · split at hok
    · simp_all
    · split at hok
      · split at hok
        · rename_i p2 hfb
          obtain ⟨t2, d2⟩ := p2
          obtain ⟨rfl, rfl⟩ : t2 = t ∧ d2 = d := by simpa using hok
          exact fallbackEntry_sync h e _ _ hfb
        · simp_all
      · simp_all

/-- C10: a parsed batch that reaches the cache-replacement step yields two
views of equal length whose records at each index carry the same value and
the same updated timestamp: each raw entry is represented in both views or
dropped from both. -/
theorem views_lockstep_spec (h : Int) (entries : List RawEntry)
    (lt : List TempoDayT) (ld : List TempoDayD)
    (hok : processValues h entries = Except.ok (lt, ld)) :
    lt.length = ld.length ∧
    ∀ i (hi : i < lt.length) (hj : i < ld.length),
      (lt.get ⟨i, hi⟩).Value = (ld.get ⟨i, hj⟩).Value ∧
      (lt.get ⟨i, hi⟩).Updated = (ld.get ⟨i, hj⟩).Updated := by
  induction entries generalizing lt ld with
  | nil =>
    obtain ⟨rfl, rfl⟩ : ([], []) = (lt, ld) := by
      simpa [processValues] using hok
    exact ⟨rfl, fun i hi hj => absurd hi (by simp)⟩
  | cons e rest ih =>
    unfold processValues at hok
    rcases hpe : processEntry h e with err | o
    · rw [hpe] at hok
      exact absurd hok (by simp)
    · rw [hpe] at hok
      rcases o with _ | ⟨t, d⟩
      · exact ih lt ld hok
      · rcases hrest : processValues h rest with err | ⟨lt2, ld2⟩
        · rw [hrest] at hok
          exact absurd hok (by simp)
        · rw [hrest] at hok
          obtain ⟨rfl, rfl⟩ : (t :: lt2, d :: ld2) = (lt, ld) := by
            simpa using hok
          obtain ⟨hlen, hidx⟩ := ih lt2 ld2 hrest
          obtain ⟨hval, hupd⟩ := processEntry_sync h e t d hpe
          refine ⟨by simpa using hlen, ?_⟩
          intro i hi hj
          cases i with
          | zero => exact ⟨hval, hupd⟩
          | succ n =>
            exact hidx n (by simpa using hi) (by simpa using hj)

/-- Closed instance of the lockstep invariant on a one-entry batch. -/
theorem views_lockstep_spec_witness :
    ([(⟨⟨1704175200, 3600⟩, ⟨1704261600, 3600⟩, "RED", ⟨1704103200, 3600⟩⟩ :
        TempoDayT)].length =
      [(⟨19724, 19725, "RED", ⟨1704103200, 3600⟩⟩ : TempoDayD)].length) ∧
    ("RED" : String) = "RED" :=
  ⟨(views_lockstep_spec 6 [entryW2]
      [⟨⟨1704175200, 3600⟩, ⟨1704261600, 3600⟩, "RED", ⟨1704103200, 3600⟩⟩]
      [⟨19724, 19725, "RED", ⟨1704103200, 3600⟩⟩] (by decide)).1,
   rfl⟩

/-- C4 fails on the code: an entry whose start key is missing aborts the
whole batch (the handler reads the start key again and the second
`KeyError` is uncaught), dropping the following well-formed entry, which
alone parses fine. -/
theorem known_bad_data_counterexample :
    processValues 6 [entryNoStart, entryW2] = Except.error PyErr.keyError ∧
    processValues 6 [entryW2] = Except.ok
      ([⟨⟨1704175200, 3600⟩, ⟨1704261600, 3600⟩, "RED", ⟨1704103200, 3600⟩⟩],
       [⟨19724, 19725, "RED", ⟨1704103200, 3600⟩⟩]) := by
  constructor <;> decide

/-- C4 amended: an entry missing only its value key whose raw start equals
the problem-date literal is kept in both views with the fixed `BLUE`
value; an entry whose start key is present, parseable and different from
the literal but whose value key is missing is skipped without aborting the
batch; but an entry whose start key is missing raises an uncaught
`KeyError` that aborts the whole batch. -/
theorem known_bad_data_amended_spec (h : Int) (e : RawEntry)
    (rest : List RawEntry) (sStr eStr uStr : String) (sDT eDT uDT : PyDatetime) :
    (e.start_date = some problemStart → e.value = none →
      e.end_date = some eStr → parse_rte_api_datetime eStr = some eDT →
      e.updated_date = some uStr → parse_rte_api_datetime uStr = some uDT →
      processEntry h e = Except.ok (some
        (⟨⟨1672185600 + h * 3600, 3600⟩, ⟨eDT.wall + h * 3600, eDT.tz⟩,
          API_VALUE_BLUE, uDT⟩,
         ⟨pydate ⟨1672185600, 3600⟩, pydate eDT, API_VALUE_BLUE, uDT⟩))) ∧
    (e.start_date = some sStr → sStr ≠ problemStart →
      parse_rte_api_datetime sStr = some sDT →
      e.end_date = some eStr → parse_rte_api_datetime eStr = some eDT →
      e.value = none →
      processEntry h e = Except.ok none ∧
      processValues h (e :: rest) = processValues h rest) ∧
    (e.start_date = none →
      processEntry h e = Except.error PyErr.keyError ∧
      processValues h (e :: rest) = Except.error PyErr.keyError) := by
  refine ⟨?_, ?_, ?_⟩
  · intro h1 h2 h3 h4 h5 h6
    have hp : parse_rte_api_datetime "2022-12-28T00:00:00+01:00" =
        some ⟨1672185600, 3600⟩ := by decide
    simp [processEntry, tryParseEntry, fallbackEntry, problemStart,
      h1, h2, h3, h4, h5, h6, hp, adjust_tempo_time]
  · intro h1 h2 h3 h4 h5 h6
    have hpe : processEntry h e = Except.ok none := by
      simp [processEntry, tryParseEntry, h1, h2, h3, h4, h5, h6]
    exact ⟨hpe, by simp [processValues, hpe]⟩
  · intro h1
    have hpe : processEntry h e = Except.error PyErr.keyError := by
      simp [processEntry, tryParseEntry, h1]
    exact ⟨hpe, by simp [processValues, hpe]⟩

/-- Closed instance of the amended known-bad-data rule: the documented
problem entry is kept with `BLUE`, and a missing-value entry with another
start is skipped without aborting. -/
theorem known_bad_data_amended_spec_witness :
    processEntry 6 entryProblem = Except.ok (some
      (⟨⟨1672185600 + 6 * 3600, 3600⟩, ⟨1672272000 + 6 * 3600, 3600⟩,
        API_VALUE_BLUE, ⟨1672142400, 3600⟩⟩,
       ⟨pydate ⟨1672185600, 3600⟩, pydate ⟨1672272000, 3600⟩,
        API_VALUE_BLUE, ⟨1672142400, 3600⟩⟩)) ∧
    (processEntry 6 entrySkip = Except.ok none ∧
      processValues 6 [entrySkip] = processValues 6 []) :=
  ⟨(known_bad_data_amended_spec 6 entryProblem [] "" "2022-12-29T00:00:00+01:00"
      "2022-12-27T12:00:00+01:00" ⟨0, 0⟩ ⟨1672272000, 3600⟩ ⟨1672142400, 3600⟩).1
      rfl rfl rfl (by decide) rfl (by decide),
   (known_bad_data_amended_spec 6 entrySkip [] "2024-01-05T00:00:00+01:00"
      "2024-01-06T00:00:00+01:00" "" ⟨1704412800, 3600⟩ ⟨1704499200, 3600⟩
      ⟨0, 0⟩).2.1
      rfl (by decide) (by decide) rfl (by decide) rfl⟩

/-- C5 fails on the code: a cycle whose payload misses the results key
raises an uncaught `KeyError` that stops the worker loop; the scripted
second cycle (an ordinary error payload, which a live loop would survive)
is never run. -/
theorem uncaught_exception_counterexample :
    runLoop 6 w0 [(nowA, missingResultsPayload), (nowA, errorPayload)] =
      (w0, some PyErr.keyError) ∧
    (runCycle 6 w0 nowA missingResultsPayload).2 = Except.error PyErr.keyError := by
  constructor <;> decide

/-- C5 amended: only the recognized error-mapping payload is treated as a
failed fetch — the cycle then returns the 10-minute wait and the loop goes
on; an unexpected exception such as a missing results key is not caught
and terminates the worker loop. -/
theorem runCycle_amended_spec (h : Int) (w : APIWorker) (now : PyDatetime)
    (p : Payload) (rest : List (PyDatetime × Payload)) :
    (p.error.isSome = true → p.error_description.isSome = true →
      runCycle h w now p = (w, Except.ok 600) ∧
      runLoop h w ((now, p) :: rest) = runLoop h w rest) ∧
    (p.error.isSome = false → p.tempo_like_calendars = none →
      runCycle h w now p = (w, Except.error PyErr.keyError) ∧
      runLoop h w ((now, p) :: rest) = (w, some PyErr.keyError)) := by
  constructor
  · intro h1 h2
    have hu : update_tempo_days h w p = (w, Except.ok none) := by
      simp [update_tempo_days, h1, h2]
    have hc : runCycle h w now p = (w, Except.ok 600) := by
      simp [runCycle, hu, compute_wait_time]
    exact ⟨hc, by simp [runLoop, hc]⟩
  · intro h1 h2
    have hu : update_tempo_days h w p = (w, Except.error PyErr.keyError) := by
      simp [update_tempo_days, h1, h2]
    have hc : runCycle h w now p = (w, Except.error PyErr.keyError) := by
      simp [runCycle, hu]
    exact ⟨hc, by simp [runLoop, hc]⟩

/-- Closed instance of the amended cycle behaviour: an error-mapping
payload yields the 10-minute wait and the loop continues past it. -/
theorem runCycle_amended_spec_witness :
    runCycle 6 w0 nowA errorPayload = (w0, Except.ok 600) ∧
    runLoop 6 w0 [(nowA, errorPayload)] = runLoop 6 w0 [] :=
  (runCycle_amended_spec 6 w0 nowA errorPayload []).1 rfl rfl

end RteTempo
